import Mathlib

/-!
Verification of the spectral fluent-assertion crate.

The repository sources under verification are src/src/hashset.rs and
src/src/string.rs.  The subject wrapper `Spec`, the `DescriptiveSpec`
capability and the `AssertionFailure` builder live in the crate root, which
is not part of the given sources; those are modelled from the specification
(each such definition says so in its doc comment).  Everything else is a
direct translation of the Rust code.

Modelling conventions:
* Rust `&str` / `String` subjects are Lean `String`s; the byte-level Rust
  predicates (equality, starts_with, ends_with, contains) coincide with the
  codepoint-level ones on valid UTF-8, so they are embedded on `String.data`.
* `std::collections::HashSet` is `ModelHashSet`: a duplicate-free list whose
  order records the set's iteration order.  The iteration order of a Rust
  `HashSet` is an artefact of the hasher state and is not determined by the
  set's contents, so two runs may observe different orders for equal sets;
  the model keeps the order explicit for exactly that reason.
* A failing assertion panics in Rust; here every assertion returns
  `Except FailureReport _`, `.error r` standing for the committed panic
  carrying the structured report `r` (rendered to the panic string by
  `render`).
* The generic bound `E: Borrow<V>` with its three usual instantiations
  (owned value, shared reference, mutable reference) is the inductive
  `Borrowed`, and `Borrowed.borrow` is `Borrow::borrow`.
* The Rust `Debug` bound on hashset element types is an explicit rendering
  function `dbg : V → String`.
-/

namespace Spectral

/-- The three argument forms admitted by the `E: Borrow<V>` bound of the
assertion operations: an owned value, an immutable reference, or a mutable
reference. -/
inductive Borrowed (α : Type) where
  | owned : α → Borrowed α
  | ref : α → Borrowed α
  | mutRef : α → Borrowed α
deriving DecidableEq

/-- Model of `Borrow::borrow`: all three forms expose the same underlying
value. -/
def Borrowed.borrow {α : Type} : Borrowed α → α
  | .owned v => v
  | .ref v => v
  | .mutRef v => v

/-- Modelled from the spec: the subject wrapper `Spec` of the crate root
(not under src/).  It holds the subject together with the descriptive
metadata (`subject_name`, `location`, `description`) that the failure
builder reads through the `DescriptiveSpec` capability. -/
structure Spec (α : Type) where
  subject : α
  subject_name : Option String
  location : Option String
  description : Option String
deriving DecidableEq

/-- Modelled from the spec: the `AssertionFailure` builder of the crate root
(not under src/): the metadata copied from the originating wrapper plus the
`expected`, `actual` and optional `message` texts, each set at most once. -/
structure FailureReport where
  subject_name : Option String
  location : Option String
  description : Option String
  expected : Option String
  actual : Option String
  message : Option String
deriving DecidableEq

/-- Modelled from the spec: `AssertionFailure::from_spec`, which captures the
wrapper's descriptive metadata and leaves the three texts unset. -/
def from_spec {α : Type} (s : Spec α) : FailureReport :=
  { subject_name := s.subject_name
    location := s.location
    description := s.description
    expected := none
    actual := none
    message := none }

/-- Modelled from the spec: `AssertionFailure::with_expected`. -/
def FailureReport.with_expected (r : FailureReport) (e : String) : FailureReport :=
  { r with expected := some e }

/-- Modelled from the spec: `AssertionFailure::with_actual`. -/
def FailureReport.with_actual (r : FailureReport) (a : String) : FailureReport :=
  { r with actual := some a }

/-- Modelled from the spec: `AssertionFailure::with_message`. -/
def FailureReport.with_message (r : FailureReport) (m : String) : FailureReport :=
  { r with message := some m }

/-- Modelled from the spec: the commit step of `AssertionFailure::fail`
(crate root, not under src/) assembles the panic string as a newline-tab
"expected:" line, a newline-tab "was:" line and an optional newline-tab
message line.  The token standing before "was:" is a parameter because the
two families pin it differently in their own `should_panic` expectations:
src/src/hashset.rs line 142 fixes the set family's line to "\n\tbut was:"
and src/src/string.rs line 235 fixes the string family's line to
"\n\t but was:". -/
def render (butTok : String) (r : FailureReport) : String :=
  "\n\texpected: " ++ r.expected.getD "" ++
    "\n\t" ++ butTok ++ "was: " ++ r.actual.getD "" ++
    (match r.message with
     | some m => "\n\t" ++ m
     | none => "")

/-- The token before "was:" observed by the hashset-family tests. -/
def hashsetButTok : String := "but "

/-- The token before "was:" observed by the string-family tests. -/
def stringButTok : String := " but "

/-- Definition following the claim's words, not the source: the §4.5
template with the set family omitting the word "but", so that its second
line reads "\n\twas: <actual>". -/
def specRenderOmittingBut (r : FailureReport) : String :=
  "\n\texpected: " ++ r.expected.getD "" ++
    "\n\twas: " ++ r.actual.getD "" ++
    (match r.message with
     | some m => "\n\t" ++ m
     | none => "")

/-- Debug rendering of one character inside a Rust string literal
(`str`'s `Debug` impl escapes each character); faithful for the printable
ASCII range plus the common escapes, which covers every string used here. -/
def rustEscapeChar (c : Char) : String :=
  if c = '"' then "\\\""
  else if c = '\\' then "\\\\"
  else if c = '\n' then "\\n"
  else if c = '\t' then "\\t"
  else if c = '\r' then "\\r"
  else String.singleton c

/-- Rust `format!("{:?}", s)` for a string subject: the quoted, escaped
text. -/
def rustDebugStr (s : String) : String :=
  "\"" ++ String.join (s.data.map rustEscapeChar) ++ "\""

/-- Rust `format!("{:?}", v)` for a `Vec` of elements rendered by `dbg`:
bracketed, comma-separated. -/
def rustDebugList {V : Type} (dbg : V → String) (l : List V) : String :=
  "[" ++ String.intercalate ", " (l.map dbg) ++ "]"

/-- Modelled from the spec: the external diff renderer
(`pretty_assertions::Comparison`, an external collaborator of the core),
treated as an opaque formatter over the expected and actual strings whose
output the core embeds verbatim as the failure message. -/
def diffRender (expected actual : String) : String :=
  "Diff of " ++ rustDebugStr expected ++ " and " ++ rustDebugStr actual

/-- Whether a modelled assertion call returned normally (`.ok`) rather than
panicking (`.error`). -/
def succeeds {ε α : Type} : Except ε α → Bool
  | .ok _ => true
  | .error _ => false

/-- Model of `std::collections::HashSet<V>`: `elems` lists the stored
elements in the set's iteration order (an artefact of the hasher state, not
determined by the set's contents), and `nodup` is the set invariant. -/
structure ModelHashSet (V : Type) where
  elems : List V
  nodup : elems.Nodup

/-- Model of `HashSet::get(&v)`: the element stored in the set that compares
equal to `v` under the container's equality, if any. -/
def ModelHashSet.get? {V : Type} [DecidableEq V] (s : ModelHashSet V) (v : V) : Option V :=
  s.elems.find? (fun x => decide (x = v))

namespace HashSetAssertions

/-- Translation of `has_length` (src/src/hashset.rs lines 32-41). -/
def has_length {V : Type} (spec : Spec (ModelHashSet V)) (expected : Nat) :
    Except FailureReport Unit :=
  let subject := spec.subject
  if subject.elems.length ≠ expected then
    .error (((from_spec spec).with_expected
        ("hashset to have length <" ++ toString expected ++ ">")).with_actual
        ("<" ++ toString subject.elems.length ++ ">"))
  else
    .ok ()

/-- Translation of the hashset `is_empty` (src/src/hashset.rs lines 49-58). -/
def is_empty {V : Type} (spec : Spec (ModelHashSet V)) :
    Except FailureReport Unit :=
  let subject := spec.subject
  if ¬ subject.elems.isEmpty then
    .error (((from_spec spec).with_expected "an empty hashset").with_actual
        ("a hashset with length <" ++ toString subject.elems.length ++ ">"))
  else
    .ok ()

/-- Translation of `contains_value` (src/src/hashset.rs lines 76-100); on
success it returns the new `Spec` built around the stored element with the
parent's metadata copied forward. -/
def contains_value {V : Type} [DecidableEq V] (dbg : V → String)
    (spec : Spec (ModelHashSet V)) (expected : Borrowed V) :
    Except FailureReport (Spec V) :=
  let subject := spec.subject
  let borrowed_expected := expected.borrow
  match subject.get? borrowed_expected with
  | some value =>
    .ok { subject := value
          subject_name := spec.subject_name
          location := spec.location
          description := spec.description }
  | none =>
    let subject_values := subject.elems
    .error (((from_spec spec).with_expected
        ("hashset to contain value <" ++ dbg borrowed_expected ++ ">")).with_actual
        ("<" ++ rustDebugList dbg subject_values ++ ">"))

/-- Translation of `does_not_contain_value` (src/src/hashset.rs lines
111-124). -/
def does_not_contain_value {V : Type} [DecidableEq V] (dbg : V → String)
    (spec : Spec (ModelHashSet V)) (expected : Borrowed V) :
    Except FailureReport Unit :=
  let subject := spec.subject
  let borrowed_expected := expected.borrow
  if (subject.get? borrowed_expected).isSome then
    .error (((from_spec spec).with_expected
        ("hashset to not contain value <" ++ dbg borrowed_expected ++ ">")).with_actual
        "present in hashset")
  else
    .ok ()

end HashSetAssertions

namespace StrAssertions

/-- Translation of the free function `equals_to` (src/src/string.rs lines
117-134); the trait impls for `&str` and `String` both delegate to it with
`subject = self.subject`, so `spec` and `subject` are separate arguments as
in the source. -/
def equals_to {α : Type} (spec : Spec α) (subject : String)
    (expected : Borrowed String) : Except FailureReport Unit :=
  let borrowed_expected := expected.borrow
  if subject ≠ borrowed_expected then
    .error ((((from_spec spec).with_expected
        ("string equals to <" ++ rustDebugStr borrowed_expected ++ ">")).with_actual
        ("<" ++ rustDebugStr subject ++ ">")).with_message
        (diffRender borrowed_expected subject))
  else
    .ok ()

/-- Translation of the free function `starts_with` (src/src/string.rs lines
136-153); `str::starts_with` is the byte-level, hence codepoint-level,
prefix test. -/
def starts_with {α : Type} (spec : Spec α) (subject : String)
    (expected : Borrowed String) : Except FailureReport Unit :=
  let borrowed_expected := expected.borrow
  if ¬ decide (borrowed_expected.data <+: subject.data) then
    .error ((((from_spec spec).with_expected
        ("string starting with <" ++ rustDebugStr borrowed_expected ++ ">")).with_actual
        ("<" ++ rustDebugStr subject ++ ">")).with_message
        (diffRender borrowed_expected subject))
  else
    .ok ()

/-- Translation of the free function `ends_with` (src/src/string.rs lines
155-172); `str::ends_with` is the byte-level, hence codepoint-level, suffix
test. -/
def ends_with {α : Type} (spec : Spec α) (subject : String)
    (expected : Borrowed String) : Except FailureReport Unit :=
  let borrowed_expected := expected.borrow
  if ¬ decide (borrowed_expected.data <:+ subject.data) then
    .error ((((from_spec spec).with_expected
        ("string ending with <" ++ rustDebugStr borrowed_expected ++ ">")).with_actual
        ("<" ++ rustDebugStr subject ++ ">")).with_message
        (diffRender borrowed_expected subject))
  else
    .ok ()

/-- Translation of the free function `contains` (src/src/string.rs lines
174-191); `str::contains` with a string pattern is the byte-level, hence
codepoint-level, substring test. -/
def contains {α : Type} (spec : Spec α) (subject : String)
    (expected : Borrowed String) : Except FailureReport Unit :=
  let borrowed_expected := expected.borrow
  if ¬ decide (borrowed_expected.data <:+: subject.data) then
    .error ((((from_spec spec).with_expected
        ("string containing <" ++ rustDebugStr borrowed_expected ++ ">")).with_actual
        ("<" ++ rustDebugStr subject ++ ">")).with_message
        (diffRender borrowed_expected subject))
  else
    .ok ()

/-- Translation of the free function `is_empty` (src/src/string.rs lines
193-200); `str::is_empty` checks for byte length zero, which holds exactly
when the text has no characters. -/
def is_empty {α : Type} (spec : Spec α) (subject : String) :
    Except FailureReport Unit :=
  if ¬ subject.data.isEmpty then
    .error (((from_spec spec).with_expected "an empty string").with_actual
        ("<" ++ rustDebugStr subject ++ ">"))
  else
    .ok ()

end StrAssertions

/-! Concrete fixtures mirroring the repository's own test data. -/

/-- The wrapper around the one-element set {1} used by the hashset tests. -/
def specSet1 : Spec (ModelHashSet Nat) :=
  { subject := ⟨[1], by decide⟩
    subject_name := some "test_set"
    location := none
    description := none }

/-- A wrapper around the set {1, 2} iterated in the order 1, 2. -/
def specSet12 : Spec (ModelHashSet Nat) :=
  { subject := ⟨[1, 2], by decide⟩
    subject_name := some "test_set"
    location := none
    description := none }

/-- A wrapper around the same set {1, 2}, iterated in the other order. -/
def specSet21 : Spec (ModelHashSet Nat) :=
  { subject := ⟨[2, 1], by decide⟩
    subject_name := some "test_set"
    location := none
    description := none }

/-- The wrapper around the text "Hello" used by the string tests. -/
def specHello : Spec String :=
  { subject := "Hello"
    subject_name := some "value"
    location := none
    description := none }

/-- The report committed by `contains_value(&2)` on the set {1}. -/
def repContains2 : FailureReport :=
  ((from_spec specSet1).with_expected
    "hashset to contain value <2>").with_actual "<[1]>"

/-- The report committed by `has_length(1)` on the set {1, 2}. -/
def repLength1 : FailureReport :=
  ((from_spec specSet12).with_expected
    "hashset to have length <1>").with_actual "<2>"

/-- The report committed by the string `is_empty()` on the text "Hello". -/
def repEmptyHello : FailureReport :=
  ((from_spec specHello).with_expected
    "an empty string").with_actual "<\"Hello\">"

/-- The report committed by the hashset `is_empty()` on the set {1}. -/
def repSetNotEmpty : FailureReport :=
  ((from_spec specSet1).with_expected
    "an empty hashset").with_actual "a hashset with length <1>"

/-- The report committed by `equals_to(&"World")` on the text "Hello". -/
def repEqualsWorld : FailureReport :=
  (((from_spec specHello).with_expected
    "string equals to <\"World\">").with_actual
    "<\"Hello\">").with_message (diffRender "World" "Hello")

/-- The report committed by `contains_value(&3)` on the set {1, 2} observed
in the iteration order 1, 2. -/
def repOrder12 : FailureReport :=
  ((from_spec specSet12).with_expected
    "hashset to contain value <3>").with_actual "<[1, 2]>"

/-- The report committed by `contains_value(&3)` on the same set {1, 2}
observed in the iteration order 2, 1. -/
def repOrder21 : FailureReport :=
  ((from_spec specSet21).with_expected
    "hashset to contain value <3>").with_actual "<[2, 1]>"

/-! Helper lemmas about the model. -/

theorem ModelHashSet.get?_isSome_iff {V : Type} [DecidableEq V]
    (s : ModelHashSet V) (v : V) : (s.get? v).isSome ↔ v ∈ s.elems := by
  simp [ModelHashSet.get?, List.find?_isSome]

theorem ModelHashSet.get?_eq_some_of_mem {V : Type} [DecidableEq V]
    {s : ModelHashSet V} {v : V} (h : v ∈ s.elems) : s.get? v = some v := by
  have hs : (s.get? v).isSome := (ModelHashSet.get?_isSome_iff s v).2 h
  obtain ⟨x, hx⟩ := Option.isSome_iff_exists.1 hs
  have hx' := hx
  rw [ModelHashSet.get?] at hx'
  have hpx := List.find?_some hx'
  simp only [decide_eq_true_eq] at hpx
  rw [hx, hpx]

theorem ModelHashSet.mem_of_get?_eq_some {V : Type} [DecidableEq V]
    {s : ModelHashSet V} {v x : V} (h : s.get? v = some x) : x ∈ s.elems :=
  List.mem_of_find?_eq_some h

theorem ModelHashSet.eq_of_get?_eq_some {V : Type} [DecidableEq V]
    {s : ModelHashSet V} {v x : V} (h : s.get? v = some x) : x = v := by
  rw [ModelHashSet.get?] at h
  have hpx := List.find?_some h
  simpa using hpx

theorem ModelHashSet.get?_eq_none_iff {V : Type} [DecidableEq V]
    (s : ModelHashSet V) (v : V) : s.get? v = none ↔ v ∉ s.elems := by
  rw [← Option.not_isSome_iff_eq_none, ModelHashSet.get?_isSome_iff]

/-- First half of the report-shape helper: a committed report with no
message renders as the expected line, a was-line and nothing further. -/
theorem render_shape_of_no_message (tok line : String) (r : FailureReport)
    (E A : String) (hE : r.expected = some E) (hA : r.actual = some A)
    (hM : r.message = none) (hline : "\n\t" ++ tok ++ "was: " = line) :
    render tok r = "\n\texpected: " ++ E ++ line ++ A := by
  rw [render, hE, hA, hM, ← hline]
  simp [String.append_assoc]

/-- Second half of the report-shape helper: a committed report with a
message renders the message as a final newline-tab line. -/
theorem render_shape_of_message (tok line : String) (r : FailureReport)
    (E A M : String) (hE : r.expected = some E) (hA : r.actual = some A)
    (hM : r.message = some M) (hline : "\n\t" ++ tok ++ "was: " = line) :
    render tok r = "\n\texpected: " ++ E ++ line ++ A ++ "\n\t" ++ M := by
  rw [render, hE, hA, hM, ← hline]
  simp [String.append_assoc]

/-! Helper lemmas: the explicit report committed by each failing
assertion. -/

theorem hl_has_length_error {V : Type} {spec : Spec (ModelHashSet V)}
    {n : Nat} {r : FailureReport}
    (hr : HashSetAssertions.has_length spec n = .error r) :
    r = ((from_spec spec).with_expected
      ("hashset to have length <" ++ toString n ++ ">")).with_actual
      ("<" ++ toString spec.subject.elems.length ++ ">") := by
  rw [HashSetAssertions.has_length] at hr
  by_cases h : spec.subject.elems.length = n
  · rw [if_neg (by simpa using h)] at hr
    exact absurd hr (by simp)
  · rw [if_pos (by simpa using h)] at hr
    simp only [Except.error.injEq] at hr
    exact hr.symm

theorem hl_set_is_empty_error {V : Type} {spec : Spec (ModelHashSet V)}
    {r : FailureReport}
    (hr : HashSetAssertions.is_empty spec = .error r) :
    r = ((from_spec spec).with_expected "an empty hashset").with_actual
      ("a hashset with length <" ++ toString spec.subject.elems.length ++ ">") := by
  rw [HashSetAssertions.is_empty] at hr
  by_cases h : spec.subject.elems.isEmpty
  · rw [if_neg (by simpa using h)] at hr
    exact absurd hr (by simp)
  · rw [if_pos (by simpa using h)] at hr
    simp only [Except.error.injEq] at hr
    exact hr.symm

theorem hl_contains_value_error {V : Type} [DecidableEq V] {dbg : V → String}
    {spec : Spec (ModelHashSet V)} {v : Borrowed V} {r : FailureReport}
    (hr : HashSetAssertions.contains_value dbg spec v = .error r) :
    r = ((from_spec spec).with_expected
      ("hashset to contain value <" ++ dbg v.borrow ++ ">")).with_actual
      ("<" ++ rustDebugList dbg spec.subject.elems ++ ">") := by
  rw [HashSetAssertions.contains_value] at hr
  cases hg : spec.subject.get? v.borrow with
  | some x => rw [hg] at hr; exact absurd hr (by simp)
  | none =>
    rw [hg] at hr
    simp only [Except.error.injEq] at hr
    exact hr.symm

theorem hl_does_not_contain_value_error {V : Type} [DecidableEq V]
    {dbg : V → String} {spec : Spec (ModelHashSet V)} {v : Borrowed V}
    {r : FailureReport}
    (hr : HashSetAssertions.does_not_contain_value dbg spec v = .error r) :
    r = ((from_spec spec).with_expected
      ("hashset to not contain value <" ++ dbg v.borrow ++ ">")).with_actual
      "present in hashset" := by
  rw [HashSetAssertions.does_not_contain_value] at hr
  by_cases h : (spec.subject.get? v.borrow).isSome
  · rw [if_pos h] at hr
    simp only [Except.error.injEq] at hr
    exact hr.symm
  · rw [if_neg h] at hr
    exact absurd hr (by simp)

theorem hl_equals_to_error {α : Type} {spec : Spec α} {subject : String}
    {e : Borrowed String} {r : FailureReport}
    (hr : StrAssertions.equals_to spec subject e = .error r) :
    r = (((from_spec spec).with_expected
      ("string equals to <" ++ rustDebugStr e.borrow ++ ">")).with_actual
      ("<" ++ rustDebugStr subject ++ ">")).with_message
      (diffRender e.borrow subject) := by
  rw [StrAssertions.equals_to] at hr
  by_cases h : subject = e.borrow
  · rw [if_neg (by simpa using h)] at hr
    exact absurd hr (by simp)
  · rw [if_pos (by simpa using h)] at hr
    simp only [Except.error.injEq] at hr
    exact hr.symm

theorem hl_starts_with_error {α : Type} {spec : Spec α} {subject : String}
    {e : Borrowed String} {r : FailureReport}
    (hr : StrAssertions.starts_with spec subject e = .error r) :
    r = (((from_spec spec).with_expected
      ("string starting with <" ++ rustDebugStr e.borrow ++ ">")).with_actual
      ("<" ++ rustDebugStr subject ++ ">")).with_message
      (diffRender e.borrow subject) := by
  rw [StrAssertions.starts_with] at hr
  by_cases h : e.borrow.data <+: subject.data
  · rw [if_neg (by simpa using h)] at hr
    exact absurd hr (by simp)
  · rw [if_pos (by simpa using h)] at hr
    simp only [Except.error.injEq] at hr
    exact hr.symm

theorem hl_ends_with_error {α : Type} {spec : Spec α} {subject : String}
    {e : Borrowed String} {r : FailureReport}
    (hr : StrAssertions.ends_with spec subject e = .error r) :
    r = (((from_spec spec).with_expected
      ("string ending with <" ++ rustDebugStr e.borrow ++ ">")).with_actual
      ("<" ++ rustDebugStr subject ++ ">")).with_message
      (diffRender e.borrow subject) := by
  rw [StrAssertions.ends_with] at hr
  by_cases h : e.borrow.data <:+ subject.data
  · rw [if_neg (by simpa using h)] at hr
    exact absurd hr (by simp)
  · rw [if_pos (by simpa using h)] at hr
    simp only [Except.error.injEq] at hr
    exact hr.symm

theorem hl_contains_error {α : Type} {spec : Spec α} {subject : String}
    {e : Borrowed String} {r : FailureReport}
    (hr : StrAssertions.contains spec subject e = .error r) :
    r = (((from_spec spec).with_expected
      ("string containing <" ++ rustDebugStr e.borrow ++ ">")).with_actual
      ("<" ++ rustDebugStr subject ++ ">")).with_message
      (diffRender e.borrow subject) := by
  rw [StrAssertions.contains] at hr
  by_cases h : e.borrow.data <:+: subject.data
  · rw [if_neg (by simpa using h)] at hr
    exact absurd hr (by simp)
  · rw [if_pos (by simpa using h)] at hr
    simp only [Except.error.injEq] at hr
    exact hr.symm

theorem hl_str_is_empty_error {α : Type} {spec : Spec α} {subject : String}
    {r : FailureReport}
    (hr : StrAssertions.is_empty spec subject = .error r) :
    r = ((from_spec spec).with_expected "an empty string").with_actual
      ("<" ++ rustDebugStr subject ++ ">") := by
  rw [StrAssertions.is_empty] at hr
  by_cases h : subject.data.isEmpty
  · rw [if_neg (by simpa using h)] at hr
    exact absurd hr (by simp)
  · rw [if_pos (by simpa using h)] at hr
    simp only [Except.error.injEq] at hr
    exact hr.symm

/-! Claim theorems. -/

/-- C1: for every hashset and value `v`, `contains_value(v)` succeeds exactly
when some element of the set compares equal to `v` under the container's
equality; on success the returned wrapper's subject is the matched element
stored in the set and equals `v` (so asserting equality of that subject
against `v` also succeeds); on failure the report's expected text is
"hashset to contain value <v>" and its actual text is the debug rendering of
the set's elements. -/
theorem contains_value_characterization {V : Type} [DecidableEq V]
    (dbg : V → String) (spec : Spec (ModelHashSet V)) (v : Borrowed V) :
    (succeeds (HashSetAssertions.contains_value dbg spec v) = true ↔
      ∃ x ∈ spec.subject.elems, x = v.borrow)
    ∧ (∀ res, HashSetAssertions.contains_value dbg spec v = .ok res →
      res.subject ∈ spec.subject.elems ∧ res.subject = v.borrow)
    ∧ (∀ r, HashSetAssertions.contains_value dbg spec v = .error r →
      r.expected = some ("hashset to contain value <" ++ dbg v.borrow ++ ">")
      ∧ r.actual = some ("<" ++ rustDebugList dbg spec.subject.elems ++ ">")) := by
  have hmem : (∃ x ∈ spec.subject.elems, x = v.borrow) ↔
      v.borrow ∈ spec.subject.elems := by
    constructor
    · rintro ⟨x, hx, rfl⟩; exact hx
    · intro h; exact ⟨v.borrow, h, rfl⟩
  rw [HashSetAssertions.contains_value]
  cases hg : spec.subject.get? v.borrow with
  | some x =>
    refine ⟨?_, ?_, ?_⟩
    · simpa [succeeds, hmem] using ModelHashSet.get?_isSome_iff spec.subject v.borrow |>.1
        (by rw [hg]; rfl)
    · intro res hres
      simp only [Except.ok.injEq] at hres
      have hx := ModelHashSet.mem_of_get?_eq_some hg
      have hxv := ModelHashSet.eq_of_get?_eq_some hg
      rw [← hres]
      exact ⟨hx, hxv⟩
    · intro r hr
      exact absurd hr (by simp)
  | none =>
    have hnot : v.borrow ∉ spec.subject.elems :=
      (ModelHashSet.get?_eq_none_iff spec.subject v.borrow).1 hg
    refine ⟨?_, ?_, ?_⟩
    · simp [succeeds, hmem, hnot]
    · intro res hres
      exact absurd hres (by simp)
    · intro r hr
      simp only [Except.error.injEq] at hr
      rw [← hr]
      exact ⟨rfl, rfl⟩

/-- Witness for C1: on the set {1}, `contains_value(&2)` panics with the
expected text "hashset to contain value <2>" and the actual text "<[1]>". -/
theorem contains_value_characterization_witness :
    repContains2.expected = some "hashset to contain value <2>"
    ∧ repContains2.actual = some "<[1]>" := by
  have h := (contains_value_characterization toString specSet1
    (Borrowed.ref 2)).2.2 repContains2 rfl
  exact ⟨h.1.trans (by decide), h.2.trans (by decide)⟩

/-- C4: for every hashset and length `n`, `has_length(n)` succeeds exactly
when the set's length equals `n`; otherwise it panics with the expected text
"hashset to have length <n>" and an actual text carrying the true length. -/
theorem has_length_characterization {V : Type}
    (spec : Spec (ModelHashSet V)) (n : Nat) :
    (succeeds (HashSetAssertions.has_length spec n) = true ↔
      spec.subject.elems.length = n)
    ∧ (∀ r, HashSetAssertions.has_length spec n = .error r →
      r.expected = some ("hashset to have length <" ++ toString n ++ ">")
      ∧ r.actual = some ("<" ++ toString spec.subject.elems.length ++ ">")) := by
  rw [HashSetAssertions.has_length]
  by_cases h : spec.subject.elems.length = n
  · refine ⟨by simp [succeeds, h], ?_⟩
    intro r hr
    rw [if_neg (by simpa using h)] at hr
    exact absurd hr (by simp)
  · refine ⟨by simp [succeeds, h], ?_⟩
    intro r hr
    rw [if_pos (by simpa using h)] at hr
    simp only [Except.error.injEq] at hr
    rw [← hr]
    exact ⟨rfl, rfl⟩

/-- Witness for C4: on the set {1, 2}, `has_length(1)` panics with the
expected text "hashset to have length <1>" and the actual text "<2>". -/
theorem has_length_characterization_witness :
    repLength1.expected = some "hashset to have length <1>"
    ∧ repLength1.actual = some "<2>" := by
  have h := (has_length_characterization specSet12 1).2 repLength1 rfl
  exact ⟨h.1.trans (by decide), h.2.trans (by decide)⟩

/-- C5: for every hashset and value `v`, `contains_value(v)` and
`does_not_contain_value(v)` are mutually exclusive and exhaustive: exactly
one of the two calls returns normally and the other panics. -/
theorem contains_value_exclusive_exhaustive {V : Type} [DecidableEq V]
    (dbg : V → String) (spec : Spec (ModelHashSet V)) (v : Borrowed V) :
    succeeds (HashSetAssertions.contains_value dbg spec v)
      = ! succeeds (HashSetAssertions.does_not_contain_value dbg spec v) := by
  rw [HashSetAssertions.contains_value, HashSetAssertions.does_not_contain_value]
  cases hg : spec.subject.get? v.borrow <;> simp [succeeds, hg]

/-- C6: for every text subject and expected string, `equals_to` succeeds
exactly on exact (hence case-sensitive, unnormalized) equality, and
`starts_with`, `ends_with` and `contains` agree with the native
prefix/suffix/substring predicates on the text; in particular
`starts_with("")` and `contains("")` succeed for every subject. -/
theorem str_predicate_characterization {α : Type} (spec : Spec α)
    (subject : String) (e : Borrowed String) :
    (succeeds (StrAssertions.equals_to spec subject e) = true ↔
      subject = e.borrow)
    ∧ (succeeds (StrAssertions.starts_with spec subject e) = true ↔
      e.borrow.data <+: subject.data)
    ∧ (succeeds (StrAssertions.ends_with spec subject e) = true ↔
      e.borrow.data <:+ subject.data)
    ∧ (succeeds (StrAssertions.contains spec subject e) = true ↔
      e.borrow.data <:+: subject.data)
    ∧ succeeds (StrAssertions.starts_with spec subject (Borrowed.ref "")) = true
    ∧ succeeds (StrAssertions.contains spec subject (Borrowed.ref "")) = true := by
  refine ⟨?_, ?_, ?_, ?_, ?_, ?_⟩
  · rw [StrAssertions.equals_to]
    by_cases h : subject = e.borrow <;> simp [succeeds, h]
  · rw [StrAssertions.starts_with]
    by_cases h : e.borrow.data <+: subject.data <;> simp [succeeds, h]
  · rw [StrAssertions.ends_with]
    by_cases h : e.borrow.data <:+ subject.data <;> simp [succeeds, h]
  · rw [StrAssertions.contains]
    by_cases h : e.borrow.data <:+: subject.data <;> simp [succeeds, h]
  · rw [StrAssertions.starts_with]
    have h : (Borrowed.ref "").borrow.data <+: subject.data := ⟨subject.data, rfl⟩
    simp [succeeds, h]
  · rw [StrAssertions.contains]
    have h : (Borrowed.ref "").borrow.data <:+: subject.data :=
      ⟨[], subject.data, rfl⟩
    simp [succeeds, h]

/-- C7: argument-form invariance: every assertion taking an expected
argument behaves identically — same pass/fail outcome and same report — when
the argument is passed as an owned value, an immutable reference, or a
mutable reference. -/
theorem borrow_form_invariance {V : Type} [DecidableEq V] (dbg : V → String)
    (hspec : Spec (ModelHashSet V)) (v : V)
    (sspec : Spec String) (subject : String) (s : String) :
    (HashSetAssertions.contains_value dbg hspec (Borrowed.owned v)
        = HashSetAssertions.contains_value dbg hspec (Borrowed.ref v)
      ∧ HashSetAssertions.contains_value dbg hspec (Borrowed.mutRef v)
        = HashSetAssertions.contains_value dbg hspec (Borrowed.ref v))
    ∧ (HashSetAssertions.does_not_contain_value dbg hspec (Borrowed.owned v)
        = HashSetAssertions.does_not_contain_value dbg hspec (Borrowed.ref v)
      ∧ HashSetAssertions.does_not_contain_value dbg hspec (Borrowed.mutRef v)
        = HashSetAssertions.does_not_contain_value dbg hspec (Borrowed.ref v))
    ∧ (StrAssertions.equals_to sspec subject (Borrowed.owned s)
        = StrAssertions.equals_to sspec subject (Borrowed.ref s)
      ∧ StrAssertions.equals_to sspec subject (Borrowed.mutRef s)
        = StrAssertions.equals_to sspec subject (Borrowed.ref s))
    ∧ (StrAssertions.starts_with sspec subject (Borrowed.owned s)
        = StrAssertions.starts_with sspec subject (Borrowed.ref s)
      ∧ StrAssertions.starts_with sspec subject (Borrowed.mutRef s)
        = StrAssertions.starts_with sspec subject (Borrowed.ref s))
    ∧ (StrAssertions.ends_with sspec subject (Borrowed.owned s)
        = StrAssertions.ends_with sspec subject (Borrowed.ref s)
      ∧ StrAssertions.ends_with sspec subject (Borrowed.mutRef s)
        = StrAssertions.ends_with sspec subject (Borrowed.ref s))
    ∧ (StrAssertions.contains sspec subject (Borrowed.owned s)
        = StrAssertions.contains sspec subject (Borrowed.ref s)
      ∧ StrAssertions.contains sspec subject (Borrowed.mutRef s)
        = StrAssertions.contains sspec subject (Borrowed.ref s)) :=
  ⟨⟨rfl, rfl⟩, ⟨rfl, rfl⟩, ⟨rfl, rfl⟩, ⟨rfl, rfl⟩, ⟨rfl, rfl⟩, ⟨rfl, rfl⟩⟩

/-- C8: metadata propagation on drill-down: the wrapper returned by a
successful `contains_value` carries the parent wrapper's `subject_name`,
`location` and `description` unchanged, so a failure report built from the
returned wrapper carries exactly the metadata of one built from the parent
(a subsequent failing assertion reports the original subject's name and
location). -/
theorem contains_value_metadata_propagation {V : Type} [DecidableEq V]
    (dbg : V → String) (spec : Spec (ModelHashSet V)) (v : Borrowed V)
    (res : Spec V)
    (h : HashSetAssertions.contains_value dbg spec v = .ok res) :
    res.subject_name = spec.subject_name
    ∧ res.location = spec.location
    ∧ res.description = spec.description
    ∧ from_spec res = from_spec spec := by
  rw [HashSetAssertions.contains_value] at h
  cases hg : spec.subject.get? v.borrow with
  | none => rw [hg] at h; exact absurd h (by simp)
  | some x =>
    rw [hg] at h
    simp only [Except.ok.injEq] at h
    rw [← h]
    exact ⟨rfl, rfl, rfl, rfl⟩

/-- Witness for C8: drilling into the set {1} with `contains_value(&1)`
yields a wrapper whose failure reports carry the original metadata. -/
theorem contains_value_metadata_propagation_witness :
    from_spec (Spec.mk (1 : Nat) (some "test_set") none none)
      = from_spec specSet1 :=
  (contains_value_metadata_propagation toString specSet1 (Borrowed.ref 1)
    (Spec.mk 1 (some "test_set") none none) (by rfl)).2.2.2

/-- C9: for every hashset, `is_empty()` succeeds exactly when its length is
0, and for every text subject, `is_empty()` succeeds exactly when its length
is 0; on failure the expected text is "an empty hashset" for the set family
and "an empty string" — with the quoted subject as actual text — for the
string family. -/
theorem is_empty_characterization {V α : Type}
    (hspec : Spec (ModelHashSet V)) (sspec : Spec α) (subject : String) :
    (succeeds (HashSetAssertions.is_empty hspec) = true ↔
      hspec.subject.elems.length = 0)
    ∧ (succeeds (StrAssertions.is_empty sspec subject) = true ↔
      subject.length = 0)
    ∧ (∀ r, HashSetAssertions.is_empty hspec = .error r →
      r.expected = some "an empty hashset")
    ∧ (∀ r, StrAssertions.is_empty sspec subject = .error r →
      r.expected = some "an empty string"
      ∧ r.actual = some ("<" ++ rustDebugStr subject ++ ">")) := by
  refine ⟨?_, ?_, ?_, ?_⟩
  · rw [HashSetAssertions.is_empty]
    cases hl : hspec.subject.elems <;> simp [succeeds, hl]
  · rw [StrAssertions.is_empty]
    cases hd : subject.data with
    | nil => simp [succeeds, String.length, hd]
    | cons c cs => simp [succeeds, String.length, hd]
  · intro r hr
    rw [HashSetAssertions.is_empty] at hr
    by_cases h : hspec.subject.elems.isEmpty
    · rw [if_neg (by simpa using h)] at hr
      exact absurd hr (by simp)
    · rw [if_pos (by simpa using h)] at hr
      simp only [Except.error.injEq] at hr
      rw [← hr]
      rfl
  · intro r hr
    rw [StrAssertions.is_empty] at hr
    by_cases h : subject.data.isEmpty
    · rw [if_neg (by simpa using h)] at hr
      exact absurd hr (by simp)
    · rw [if_pos (by simpa using h)] at hr
      simp only [Except.error.injEq] at hr
      rw [← hr]
      exact ⟨rfl, rfl⟩

/-- Witness for C9: the empty text passes `is_empty()`, the text "Hello"
panics with the expected text "an empty string" and the quoted subject as
actual text, and the set {1} panics with "an empty hashset". -/
theorem is_empty_characterization_witness :
    succeeds (StrAssertions.is_empty specHello "") = true
    ∧ repEmptyHello.expected = some "an empty string"
    ∧ repEmptyHello.actual = some "<\"Hello\">"
    ∧ repSetNotEmpty.expected = some "an empty hashset" := by
  have hset := (is_empty_characterization specSet1 specHello "Hello").2.2.1
    repSetNotEmpty rfl
  have hstr := (is_empty_characterization specSet1 specHello "Hello").2.2.2
    repEmptyHello rfl
  have hok := (is_empty_characterization specSet1 specHello "").2.1.2 (by decide)
  exact ⟨hok, hstr.1, hstr.2.trans (by decide), hset⟩

/-- C10: failure-message attachment policy: every failing string-family
comparison (`equals_to`, `starts_with`, `ends_with`, `contains`) attaches
the diff message rendered from the expected and actual strings, while the
failing string `is_empty` and every failing hashset assertion attach no
message at all. -/
theorem message_attachment_policy {V : Type} [DecidableEq V]
    (dbg : V → String) (hspec : Spec (ModelHashSet V)) (n : Nat)
    (v : Borrowed V) (sspec : Spec String) (subject : String)
    (e : Borrowed String) :
    (∀ r, StrAssertions.equals_to sspec subject e = .error r →
      r.message = some (diffRender e.borrow subject))
    ∧ (∀ r, StrAssertions.starts_with sspec subject e = .error r →
      r.message = some (diffRender e.borrow subject))
    ∧ (∀ r, StrAssertions.ends_with sspec subject e = .error r →
      r.message = some (diffRender e.borrow subject))
    ∧ (∀ r, StrAssertions.contains sspec subject e = .error r →
      r.message = some (diffRender e.borrow subject))
    ∧ (∀ r, StrAssertions.is_empty sspec subject = .error r →
      r.message = none)
    ∧ (∀ r, HashSetAssertions.has_length hspec n = .error r →
      r.message = none)
    ∧ (∀ r, HashSetAssertions.is_empty hspec = .error r →
      r.message = none)
    ∧ (∀ r, HashSetAssertions.contains_value dbg hspec v = .error r →
      r.message = none)
    ∧ (∀ r, HashSetAssertions.does_not_contain_value dbg hspec v = .error r →
      r.message = none) := by
  refine ⟨?_, ?_, ?_, ?_, ?_, ?_, ?_, ?_, ?_⟩
  · intro r hr; rw [hl_equals_to_error hr]; rfl
  · intro r hr; rw [hl_starts_with_error hr]; rfl
  · intro r hr; rw [hl_ends_with_error hr]; rfl
  · intro r hr; rw [hl_contains_error hr]; rfl
  · intro r hr; rw [hl_str_is_empty_error hr]; rfl
  · intro r hr; rw [hl_has_length_error hr]; rfl
  · intro r hr; rw [hl_set_is_empty_error hr]; rfl
  · intro r hr; rw [hl_contains_value_error hr]; rfl
  · intro r hr; rw [hl_does_not_contain_value_error hr]; rfl

/-- Witness for C10: the failing `equals_to(&"World")` on "Hello" carries
the diff message, and the failing `has_length(1)` on the set {1, 2} carries
none. -/
theorem message_attachment_policy_witness :
    repEqualsWorld.message = some (diffRender "World" "Hello")
    ∧ repLength1.message = none := by
  have h := message_attachment_policy toString specSet12 1 (Borrowed.ref 3)
    specHello "Hello" (Borrowed.ref "World")
  exact ⟨h.1 repEqualsWorld (by rfl), h.2.2.2.2.2.1 repLength1 rfl⟩

/-- C2 counterexample: on the set {1, 2}, `has_length(1)` commits a report
whose rendered text — the one pinned by the repository's own test
expectation at src/src/hashset.rs line 142 — reads "\n\tbut was: <2>" in
its second line; the set-family formatter therefore does not omit the word
"but" as the claim states. -/
theorem set_family_report_includes_but :
    HashSetAssertions.has_length specSet12 1 = Except.error repLength1
    ∧ render hashsetButTok repLength1
      = "\n\texpected: hashset to have length <1>\n\tbut was: <2>"
    ∧ specRenderOmittingBut repLength1
      = "\n\texpected: hashset to have length <1>\n\twas: <2>"
    ∧ render hashsetButTok repLength1 ≠ specRenderOmittingBut repLength1 :=
  ⟨by rfl, by decide, by decide, by decide⟩

/-- C2 (amended): every failure report is assembled as a newline-tab
"expected:" line, a newline-tab was-line, and — exactly when a diff message
was attached — a newline-tab message line; BOTH formatter families include
the word "but" before "was:", the set family writing "\n\tbut was:" and the
string family writing "\n\t but was:" (the families differ by the leading
space, not by the presence of "but"). -/
theorem report_shape {V : Type} [DecidableEq V] (dbg : V → String)
    (hspec : Spec (ModelHashSet V)) (n : Nat) (v : Borrowed V)
    (sspec : Spec String) (subject : String) (e : Borrowed String) :
    (∀ r, HashSetAssertions.has_length hspec n = .error r →
      render hashsetButTok r = "\n\texpected: "
        ++ ("hashset to have length <" ++ toString n ++ ">")
        ++ "\n\tbut was: "
        ++ ("<" ++ toString hspec.subject.elems.length ++ ">"))
    ∧ (∀ r, HashSetAssertions.is_empty hspec = .error r →
      render hashsetButTok r = "\n\texpected: " ++ "an empty hashset"
        ++ "\n\tbut was: "
        ++ ("a hashset with length <" ++ toString hspec.subject.elems.length ++ ">"))
    ∧ (∀ r, HashSetAssertions.contains_value dbg hspec v = .error r →
      render hashsetButTok r = "\n\texpected: "
        ++ ("hashset to contain value <" ++ dbg v.borrow ++ ">")
        ++ "\n\tbut was: "
        ++ ("<" ++ rustDebugList dbg hspec.subject.elems ++ ">"))
    ∧ (∀ r, HashSetAssertions.does_not_contain_value dbg hspec v = .error r →
      render hashsetButTok r = "\n\texpected: "
        ++ ("hashset to not contain value <" ++ dbg v.borrow ++ ">")
        ++ "\n\tbut was: " ++ "present in hashset")
    ∧ (∀ r, StrAssertions.equals_to sspec subject e = .error r →
      render stringButTok r = "\n\texpected: "
        ++ ("string equals to <" ++ rustDebugStr e.borrow ++ ">")
        ++ "\n\t but was: " ++ ("<" ++ rustDebugStr subject ++ ">")
        ++ "\n\t" ++ diffRender e.borrow subject)
    ∧ (∀ r, StrAssertions.starts_with sspec subject e = .error r →
      render stringButTok r = "\n\texpected: "
        ++ ("string starting with <" ++ rustDebugStr e.borrow ++ ">")
        ++ "\n\t but was: " ++ ("<" ++ rustDebugStr subject ++ ">")
        ++ "\n\t" ++ diffRender e.borrow subject)
    ∧ (∀ r, StrAssertions.ends_with sspec subject e = .error r →
      render stringButTok r = "\n\texpected: "
        ++ ("string ending with <" ++ rustDebugStr e.borrow ++ ">")
        ++ "\n\t but was: " ++ ("<" ++ rustDebugStr subject ++ ">")
        ++ "\n\t" ++ diffRender e.borrow subject)
    ∧ (∀ r, StrAssertions.contains sspec subject e = .error r →
      render stringButTok r = "\n\texpected: "
        ++ ("string containing <" ++ rustDebugStr e.borrow ++ ">")
        ++ "\n\t but was: " ++ ("<" ++ rustDebugStr subject ++ ">")
        ++ "\n\t" ++ diffRender e.borrow subject)
    ∧ (∀ r, StrAssertions.is_empty sspec subject = .error r →
      render stringButTok r = "\n\texpected: " ++ "an empty string"
        ++ "\n\t but was: " ++ ("<" ++ rustDebugStr subject ++ ">")) := by
  refine ⟨?_, ?_, ?_, ?_, ?_, ?_, ?_, ?_, ?_⟩
  · intro r hr
    rw [hl_has_length_error hr]
    exact render_shape_of_no_message _ _ _ _ _ rfl rfl rfl (by decide)
  · intro r hr
    rw [hl_set_is_empty_error hr]
    exact render_shape_of_no_message _ _ _ _ _ rfl rfl rfl (by decide)
  · intro r hr
    rw [hl_contains_value_error hr]
    exact render_shape_of_no_message _ _ _ _ _ rfl rfl rfl (by decide)
  · intro r hr
    rw [hl_does_not_contain_value_error hr]
    exact render_shape_of_no_message _ _ _ _ _ rfl rfl rfl (by decide)
  · intro r hr
    rw [hl_equals_to_error hr]
    exact render_shape_of_message _ _ _ _ _ _ rfl rfl rfl (by decide)
  · intro r hr
    rw [hl_starts_with_error hr]
    exact render_shape_of_message _ _ _ _ _ _ rfl rfl rfl (by decide)
  · intro r hr
    rw [hl_ends_with_error hr]
    exact render_shape_of_message _ _ _ _ _ _ rfl rfl rfl (by decide)
  · intro r hr
    rw [hl_contains_error hr]
    exact render_shape_of_message _ _ _ _ _ _ rfl rfl rfl (by decide)
  · intro r hr
    rw [hl_str_is_empty_error hr]
    exact render_shape_of_no_message _ _ _ _ _ rfl rfl rfl (by decide)

/-- Witness for the amended C2: the concrete renderings of a failing set
assertion and a failing string assertion, matching the repository's own
test expectations character for character. -/
theorem report_shape_witness :
    render hashsetButTok repLength1
      = "\n\texpected: hashset to have length <1>\n\tbut was: <2>"
    ∧ render stringButTok repEqualsWorld
      = "\n\texpected: string equals to <\"World\">\n\t but was: <\"Hello\">\n\t"
        ++ diffRender "World" "Hello" := by
  have h := report_shape toString specSet12 1 (Borrowed.ref 3) specHello
    "Hello" (Borrowed.ref "World")
  exact ⟨(h.1 repLength1 rfl).trans (by decide),
    (h.2.2.2.2.1 repEqualsWorld (by rfl)).trans (by decide)⟩

/-- C3 counterexample: `specSet12` and `specSet21` wrap the same hashset
value {1, 2} — their element lists are permutations, recording the two
iteration orders a hasher may produce in two runs — with identical
metadata, yet the failing `contains_value(&3)` commits reports whose actual
texts differ: the diagnostic of a multi-element hashset is not the same
string on every run. -/
theorem contains_value_actual_text_order_dependent :
    specSet12.subject.elems.Perm specSet21.subject.elems
    ∧ specSet12.subject_name = specSet21.subject_name
    ∧ specSet12.location = specSet21.location
    ∧ specSet12.description = specSet21.description
    ∧ HashSetAssertions.contains_value toString specSet12 (Borrowed.ref 3)
      = Except.error repOrder12
    ∧ HashSetAssertions.contains_value toString specSet21 (Borrowed.ref 3)
      = Except.error repOrder21
    ∧ repOrder12.actual = some "<[1, 2]>"
    ∧ repOrder21.actual = some "<[2, 1]>"
    ∧ repOrder12.actual ≠ repOrder21.actual :=
  ⟨List.Perm.swap 2 1 [], rfl, rfl, rfl, by rfl, by rfl,
    by decide, by decide, by decide⟩

/-- C3 (amended): each committed report is a deterministic function of the
subject value, the expected argument and the subject's iteration order; for
two observations of the same hashset under permuted iteration orders and
identical metadata, `has_length`, `is_empty` and `does_not_contain_value`
commit identical reports, and `contains_value` has the same pass/fail
outcome and the same expected text — but its failure actual text follows
the iteration order, which a Rust `HashSet` does not fix across runs (see
the counterexample), so character-for-character reproducibility holds only
for a fixed iteration order. -/
theorem report_determinism {V : Type} [DecidableEq V] (dbg : V → String)
    (e1 e2 : ModelHashSet V) (nm loc dsc : Option String) (n : Nat)
    (v : Borrowed V) (h : e1.elems.Perm e2.elems) :
    HashSetAssertions.has_length ⟨e1, nm, loc, dsc⟩ n
      = HashSetAssertions.has_length ⟨e2, nm, loc, dsc⟩ n
    ∧ HashSetAssertions.is_empty ⟨e1, nm, loc, dsc⟩
      = HashSetAssertions.is_empty ⟨e2, nm, loc, dsc⟩
    ∧ HashSetAssertions.does_not_contain_value dbg ⟨e1, nm, loc, dsc⟩ v
      = HashSetAssertions.does_not_contain_value dbg ⟨e2, nm, loc, dsc⟩ v
    ∧ succeeds (HashSetAssertions.contains_value dbg ⟨e1, nm, loc, dsc⟩ v)
      = succeeds (HashSetAssertions.contains_value dbg ⟨e2, nm, loc, dsc⟩ v)
    ∧ (∀ r1 r2, HashSetAssertions.contains_value dbg ⟨e1, nm, loc, dsc⟩ v = .error r1 →
      HashSetAssertions.contains_value dbg ⟨e2, nm, loc, dsc⟩ v = .error r2 →
      r1.expected = r2.expected) := by
  have hlen : e1.elems.length = e2.elems.length := h.length_eq
  have hsome : (e1.get? v.borrow).isSome = (e2.get? v.borrow).isSome := by
    by_cases hv : v.borrow ∈ e1.elems
    · rw [(ModelHashSet.get?_isSome_iff e1 v.borrow).2 hv,
        (ModelHashSet.get?_isSome_iff e2 v.borrow).2 (h.mem_iff.1 hv)]
    · have h1 : ¬ (e1.get? v.borrow).isSome = true := fun hc =>
        hv ((ModelHashSet.get?_isSome_iff e1 v.borrow).1 hc)
      have h2 : ¬ (e2.get? v.borrow).isSome = true := fun hc =>
        hv (h.mem_iff.2 ((ModelHashSet.get?_isSome_iff e2 v.borrow).1 hc))
      rw [Bool.not_eq_true] at h1 h2
      rw [h1, h2]
  refine ⟨?_, ?_, ?_, ?_, ?_⟩
  · rw [HashSetAssertions.has_length, HashSetAssertions.has_length]
    simp only [hlen]
    rfl
  · have hemp : e1.elems.isEmpty = e2.elems.isEmpty := by
      have hl := hlen
      cases he1 : e1.elems <;> cases he2 : e2.elems <;>
        simp [he1, he2] at hl ⊢
    rw [HashSetAssertions.is_empty, HashSetAssertions.is_empty]
    simp only [hemp, hlen]
    rfl
  · rw [HashSetAssertions.does_not_contain_value,
      HashSetAssertions.does_not_contain_value]
    simp only [hsome]
    rfl
  · rw [HashSetAssertions.contains_value, HashSetAssertions.contains_value]
    cases hg1 : e1.get? v.borrow <;> cases hg2 : e2.get? v.borrow <;>
      simp_all [succeeds]
  · intro r1 r2 h1 h2
    rw [hl_contains_value_error h1, hl_contains_value_error h2]
    rfl

/-- Witness for the amended C3: the two iteration orders of {1, 2} give
identical `has_length` results and the same `contains_value` outcome. -/
theorem report_determinism_witness :
    HashSetAssertions.has_length specSet12 2
      = HashSetAssertions.has_length specSet21 2
    ∧ succeeds (HashSetAssertions.contains_value toString specSet12 (Borrowed.ref 3))
      = succeeds (HashSetAssertions.contains_value toString specSet21 (Borrowed.ref 3)) := by
  have h := report_determinism toString ⟨[1, 2], by decide⟩ ⟨[2, 1], by decide⟩
    (some "test_set") none none 2 (Borrowed.ref 3) (List.Perm.swap 2 1 [])
  exact ⟨h.1, h.2.2.2.1⟩

end Spectral
